import Mathlib

/-!
Shallow embedding of `src/src/stock/quote.rs` from the `korea-investment-api`
repository: the authenticated request-dispatch core (`Quote`) and its three
operations `daily_price`, `periodic_price` and `volume_rank`.

The embedding models the HTTP transport (`reqwest::Client`) as a function from
a request to a transport result, and records the list of requests actually
handed to the transport so that "no HTTP request is sent" is expressible.
JSON deserialization (serde's derived `Deserialize`, external to the shown
source) is modelled as a decoder function parameter.
-/

/-- `Environment` from `crate::types` (not under src/): the spec gives it as
the enumerated value constraining the base URL, values Real and Virtual. -/
inductive Environment where
  | Real
  | Virtual
deriving DecidableEq, Repr

/-- `TrId` from `crate::types` (not under src/). Only the three constructors
used by `quote.rs` are embedded. -/
inductive TrId where
  | DailyPrice
  | PeriodicPrice
  | VolumeRank
deriving DecidableEq, Repr

/-- Modelled from the spec: the `Into<String>` conversion of `TrId` lives in
repository code not under src/; the spec says each operation's transaction
identifier is "mapped 1:1 from the operation invoked to a fixed string value
sent as a header". The concrete strings are placeholders; the map is injective
as the spec requires. -/
def TrId.intoString : TrId → String
  | .DailyPrice => "TR-DAILY-PRICE"
  | .PeriodicPrice => "TR-PERIODIC-PRICE"
  | .VolumeRank => "TR-VOLUME-RANK"

/-- `MarketCode` from `crate::types` (not under src/). Modelled from the spec:
a typed market identifier with a fixed string code; `Stock` is the domestic
stock market. -/
inductive MarketCode where
  | Stock
deriving DecidableEq, Repr

/-- Modelled from the spec: the string code a `MarketCode` serializes to. -/
def MarketCode.code : MarketCode → String
  | .Stock => "J"

/-- `PeriodCode` from `crate::types` (not under src/). Modelled from the spec:
an enumerated period selector with a fixed string code. -/
inductive PeriodCode where
  | Day
  | Week
  | Month
deriving DecidableEq, Repr

/-- Modelled from the spec: the string code a `PeriodCode` serializes to. -/
def PeriodCode.code : PeriodCode → String
  | .Day => "D"
  | .Week => "W"
  | .Month => "M"

/-- `Account` from `crate::types` (not under src/). Modelled from the spec:
an opaque account context "passed into construction; not observed to affect
request shape". -/
structure Account where
  ctx : String
deriving DecidableEq, Repr

/-- `auth::Auth` (not under src/). Modelled from the spec: the authentication
provider exposes a current bearer token (may be absent) and static app key and
app secret. -/
structure Auth where
  token : Option String
  appkey : String
  appsecret : String
deriving DecidableEq, Repr

/-- `Auth::get_token` as used at quote.rs:115. -/
def Auth.get_token (a : Auth) : Option String := a.token

/-- `Auth::get_appkey` as used at quote.rs:122. -/
def Auth.get_appkey (a : Auth) : String := a.appkey

/-- `Auth::get_appsecret` as used at quote.rs:123. -/
def Auth.get_appsecret (a : Auth) : String := a.appsecret

/-- A parsed URL as produced by `reqwest::Url::parse_with_params`: the base
(scheme, host and path) together with the query pairs appended to it. -/
structure Url where
  base : String
  params : List (String × String)
deriving DecidableEq, Repr

/-- Errors of `url::Url::parse` relevant here: the base string is not an
absolute URL. -/
inductive ParseError where
  | relativeUrlWithoutBase
deriving DecidableEq, Repr

/-- Model of `url::Url::parse` validity on the base string: the url crate
accepts an absolute URL with a scheme. The dispatch code only ever builds
http(s) URLs. -/
def validBase (s : String) : Bool :=
  "https://".data.isPrefixOf s.data || "http://".data.isPrefixOf s.data

/-- Model of `reqwest::Url::parse_with_params` (quote.rs:64,90,104): parse the
base string and append the parameter pairs as the query. -/
def parse_with_params (base : String) (ps : List (String × String)) :
    Except ParseError Url :=
  if validBase base then .ok { base := base, params := ps }
  else .error .relativeUrlWithoutBase

/-- An outbound HTTP GET request as assembled by `Quote::send_request`:
target URL and header list, in the order the builder chain attaches them. -/
structure Request where
  url : Url
  headers : List (String × String)
deriving DecidableEq, Repr

/-- A raw HTTP response (`reqwest::Response`): status code and body text. -/
structure Response where
  status : Nat
  body : String
deriving DecidableEq, Repr

/-- A transport-level failure of `reqwest::Client::send` (connection, TLS,
I/O), opaque to the dispatcher. -/
abbrev TransportError := String

/-- The HTTP transport behind `reqwest::Client`: a function from the request
to the transport outcome. -/
abbrev Transport := Request → Except TransportError Response

/-- `crate::Error` (not under src/). Modelled from the spec: the error
taxonomy is authentication-unavailable, URL-construction failure, transport
failure, and JSON-decode failure, "each distinguishable to the caller".
`AuthInitFailed` is the variant named at quote.rs:118. -/
inductive Error where
  | AuthInitFailed (what : String)
  | UrlParse (e : ParseError)
  | Request (e : TransportError)
  | Decode (body : String)
deriving DecidableEq, Repr

/-- `DailyPriceResponse` (not under src/): opaque typed payload. -/
structure DailyPriceResponse where
  out : String
deriving DecidableEq, Repr

/-- `PeriodicPriceResponse` (not under src/): opaque typed payload. -/
structure PeriodicPriceResponse where
  out : String
deriving DecidableEq, Repr

/-- `VolumeRankResponse` (not under src/): opaque typed payload. -/
structure VolumeRankResponse where
  out : String
deriving DecidableEq, Repr

/-- Model of `reqwest::Response::json::<R>()`: decode the body with the
operation's serde decoder; a body the decoder rejects is a decode failure.
The status code is not consulted. -/
def Response.json {R : Type} (r : Response) (decode : String → Option R) :
    Except Error R :=
  match decode r.body with
  | some v => .ok v
  | none => .error (.Decode r.body)

/-- `DailyPriceParameter` (not under src/). Modelled from the spec: the typed
parameter set of the daily-price operation (market code, shortcode, period
code, adjustment flag). -/
structure DailyPriceParameter where
  market_code : MarketCode
  shortcode : String
  period_code : PeriodCode
  is_adjust_price : Bool
deriving DecidableEq, Repr

/-- `DailyPriceParameter::new` (quote.rs:54). -/
def DailyPriceParameter.new (market_code : MarketCode) (shortcode : String)
    (period_code : PeriodCode) (is_adjust_price : Bool) : DailyPriceParameter :=
  { market_code := market_code, shortcode := shortcode,
    period_code := period_code, is_adjust_price := is_adjust_price }

/-- Modelled from the spec: the daily-price parameter encoder (its
`IntoIterator` impl is not under src/); parameter sets "serialize
deterministically into an ordered sequence of key/value query pairs" with a
fixed operation-specific key for each typed input. -/
def DailyPriceParameter.into_iter (p : DailyPriceParameter) :
    List (String × String) :=
  [("FID_COND_MRKT_DIV_CODE", p.market_code.code),
   ("FID_INPUT_ISCD", p.shortcode),
   ("FID_PERIOD_DIV_CODE", p.period_code.code),
   ("FID_ORG_ADJ_PRC", if p.is_adjust_price then "1" else "0")]

/-- `PeriodicPriceParameter` (not under src/). Modelled from the spec: typed
parameter set of the periodic-price operation. -/
structure PeriodicPriceParameter where
  market_code : MarketCode
  shortcode : String
  start_day : String
  end_day : String
  period_code : PeriodCode
  is_adjust_price : Bool
deriving DecidableEq, Repr

/-- `PeriodicPriceParameter::new` (quote.rs:82). -/
def PeriodicPriceParameter.new (market_code : MarketCode) (shortcode : String)
    (start_day : String) (end_day : String) (period_code : PeriodCode)
    (is_adjust_price : Bool) : PeriodicPriceParameter :=
  { market_code := market_code, shortcode := shortcode, start_day := start_day,
    end_day := end_day, period_code := period_code,
    is_adjust_price := is_adjust_price }

/-- Modelled from the spec: the periodic-price parameter encoder (not under
src/), a deterministic ordered key/value sequence from the typed inputs. -/
def PeriodicPriceParameter.into_iter (p : PeriodicPriceParameter) :
    List (String × String) :=
  [("FID_COND_MRKT_DIV_CODE", p.market_code.code),
   ("FID_INPUT_ISCD", p.shortcode),
   ("FID_INPUT_DATE_1", p.start_day),
   ("FID_INPUT_DATE_2", p.end_day),
   ("FID_PERIOD_DIV_CODE", p.period_code.code),
   ("FID_ORG_ADJ_PRC", if p.is_adjust_price then "1" else "0")]

/-- `VolumeRankParameter` (not under src/). Modelled from the spec: a
pre-built parameter object, opaque to the dispatcher beyond its deterministic
serialization into query pairs. -/
structure VolumeRankParameter where
  pairs : List (String × String)
deriving DecidableEq, Repr

/-- Modelled from the spec: the volume-rank parameter encoder (not under
src/). -/
def VolumeRankParameter.into_iter (p : VolumeRankParameter) :
    List (String × String) := p.pairs

/-- The `Quote` dispatcher struct (quote.rs:13-20). -/
structure Quote where
  client : Transport
  endpoint_url : String
  environment : Environment
  auth : Auth
  account : Account

/-- `Quote::new` (quote.rs:25-43): resolve the base URL from the environment
and pack the fields; the error branch of the `Result` is never taken. -/
def Quote.new (client : Transport) (environment : Environment) (auth : Auth)
    (account : Account) : Except Error Quote :=
  let endpoint_url :=
    match environment with
    | .Real => "https://openapi.koreainvestment.com:9443"
    | .Virtual => "https://openapivts.koreainvestment.com:29443"
  .ok { client := client, endpoint_url := endpoint_url,
        environment := environment, auth := auth, account := account }

/-- `Quote::send_request` (quote.rs:108-128): build the header list in the
order of the builder chain, failing with `AuthInitFailed` before any send when
no token is available, then hand the request to the transport. The second
component is the list of requests actually given to the transport. -/
def Quote.send_request (q : Quote) (url : Url) (tr_id : TrId) :
    Except Error Response × List Request :=
  match q.auth.get_token with
  | none => (.error (.AuthInitFailed "token"), [])
  | some token =>
    let req : Request :=
      { url := url,
        headers :=
          [("Content-Type", "application/json"),
           ("Authorization", "Bearer " ++ token),
           ("appkey", q.auth.get_appkey),
           ("appsecret", q.auth.get_appsecret),
           ("tr_id", tr_id.intoString),
           ("custtype", "P")] }
    match q.client req with
    | .error e => (.error (.Request e), [req])
    | .ok resp => (.ok resp, [req])

/-- `Quote::daily_price` (quote.rs:46-66). `decode` is the serde decoder of
`DailyPriceResponse`. Returns the operation result together with the list of
requests sent. -/
def Quote.daily_price (q : Quote) (decode : String → Option DailyPriceResponse)
    (market_code : MarketCode) (shortcode : String) (period_code : PeriodCode)
    (is_adjust_price : Bool) :
    Except Error DailyPriceResponse × List Request :=
  let tr_id := TrId.DailyPrice
  let param := DailyPriceParameter.new market_code shortcode period_code
    is_adjust_price
  let url := q.endpoint_url ++ "/uapi/domestic-stock/v1/quotations/inquire-daily-price"
  match parse_with_params url param.into_iter with
  | .error e => (.error (.UrlParse e), [])
  | .ok url =>
    ((match (q.send_request url tr_id).fst with
      | .error e => .error e
      | .ok resp => resp.json decode),
     (q.send_request url tr_id).snd)

/-- `Quote::periodic_price` (quote.rs:68-92). -/
def Quote.periodic_price (q : Quote)
    (decode : String → Option PeriodicPriceResponse)
    (market_code : MarketCode) (shortcode : String) (period_code : PeriodCode)
    (start_day : String) (end_day : String) (is_adjust_price : Bool) :
    Except Error PeriodicPriceResponse × List Request :=
  let tr_id := TrId.PeriodicPrice
  let url := q.endpoint_url ++ "/uapi/domestic-stock/v1/quotations/inquire-daily-itemchartprice"
  let param := PeriodicPriceParameter.new market_code shortcode start_day
    end_day period_code is_adjust_price
  match parse_with_params url param.into_iter with
  | .error e => (.error (.UrlParse e), [])
  | .ok url =>
    ((match (q.send_request url tr_id).fst with
      | .error e => .error e
      | .ok resp => resp.json decode),
     (q.send_request url tr_id).snd)

/-- `Quote::volume_rank` (quote.rs:95-106): the base URL is the hardcoded
production host, not `q.endpoint_url` ("no VirtualMarket support"). -/
def Quote.volume_rank (q : Quote)
    (decode : String → Option VolumeRankResponse)
    (params : VolumeRankParameter) :
    Except Error VolumeRankResponse × List Request :=
  let tr_id := TrId.VolumeRank
  let url := "https://openapi.koreainvestment.com:9443/uapi/domestic-stock/v1/quotations/volume-rank"
  match parse_with_params url params.into_iter with
  | .error e => (.error (.UrlParse e), [])
  | .ok url =>
    ((match (q.send_request url tr_id).fst with
      | .error e => .error e
      | .ok resp => resp.json decode),
     (q.send_request url tr_id).snd)

/-- One method invocation on the dispatcher, with its arguments (the decoder
stands for the operation's serde impl). -/
inductive Call where
  | daily (decode : String → Option DailyPriceResponse) (m : MarketCode)
      (sc : String) (p : PeriodCode) (adj : Bool)
  | periodic (decode : String → Option PeriodicPriceResponse) (m : MarketCode)
      (sc : String) (p : PeriodCode) (d1 d2 : String) (adj : Bool)
  | volume (decode : String → Option VolumeRankResponse)
      (ps : VolumeRankParameter)

/-- The result of one method invocation: the operation's typed result and the
requests it sent. -/
inductive Outcome where
  | daily (r : Except Error DailyPriceResponse × List Request)
  | periodic (r : Except Error PeriodicPriceResponse × List Request)
  | volume (r : Except Error VolumeRankResponse × List Request)

/-- One call on the dispatcher, returning the outcome together with the
dispatcher left in place afterwards. Every method of `Quote` takes `&self`
and `Quote` has no interior-mutable field of its own, so the dispatcher a
call leaves behind is the receiver itself. -/
def Quote.call (q : Quote) : Call → Outcome × Quote
  | .daily dec m sc p adj => (.daily (q.daily_price dec m sc p adj), q)
  | .periodic dec m sc p d1 d2 adj =>
      (.periodic (q.periodic_price dec m sc p d1 d2 adj), q)
  | .volume dec ps => (.volume (q.volume_rank dec ps), q)

/-- Run a sequence of calls on the dispatcher, threading the dispatcher state
from call to call. -/
def Quote.run (q : Quote) : List Call → List Outcome × Quote
  | [] => ([], q)
  | c :: cs =>
    ((q.call c).fst :: ((q.call c).snd.run cs).fst, ((q.call c).snd.run cs).snd)

/-- A transport that always answers with the given response. -/
def okT (status : Nat) (body : String) : Transport :=
  fun _ => .ok { status := status, body := body }

/-- An authentication state with token "T", app key "K", app secret "S". -/
def tAuth : Auth := { token := some "T", appkey := "K", appsecret := "S" }

/-- An authentication state with no current token. -/
def noTokenAuth : Auth := { token := none, appkey := "K", appsecret := "S" }

/-- A concrete account context. -/
def acct : Account := { ctx := "12345678-01" }

/-- A daily-price decoder that accepts any body. -/
def dDec : String → Option DailyPriceResponse := fun _ => some { out := "decoded" }

/-- A periodic-price decoder that accepts any body. -/
def pDec : String → Option PeriodicPriceResponse := fun _ => some { out := "decoded" }

/-- A volume-rank decoder that accepts any body. -/
def vDec : String → Option VolumeRankResponse := fun _ => some { out := "decoded" }

/-- A dispatcher over a transport that always answers 500, whose auth holds a
token: exercises the handling of a non-2xx status. -/
def cxQuote : Quote :=
  { client := okT 500 "B", endpoint_url := "https://openapi.koreainvestment.com:9443",
    environment := .Real, auth := tAuth, account := acct }

/-- A dispatcher whose endpoint URL string is not a valid absolute URL, as
could be produced by constructing the struct directly inside the crate:
exercises the URL-construction failure path. -/
def badUrlQuote : Quote :=
  { client := okT 200 "B", endpoint_url := "not a url",
    environment := .Real, auth := tAuth, account := acct }

/-- The dispatcher `Quote::new` yields for the `Real` environment over a
transport answering 200, with `tAuth`. -/
def wQuote : Quote :=
  { client := okT 200 "B",
    endpoint_url := "https://openapi.koreainvestment.com:9443",
    environment := .Real, auth := tAuth, account := acct }

/-- The dispatcher `Quote::new` yields for the `Virtual` environment over a
transport answering 200, with `tAuth`. -/
def wQuoteV : Quote :=
  { client := okT 200 "B",
    endpoint_url := "https://openapivts.koreainvestment.com:29443",
    environment := .Virtual, auth := tAuth, account := acct }

theorem parse_with_params_ok (base : String) (ps : List (String × String))
    (h : validBase base = true) :
    parse_with_params base ps = .ok { base := base, params := ps } := by
  simp [parse_with_params, h]

theorem Quote.call_snd (q : Quote) (c : Call) : (q.call c).snd = q := by
  cases c <;> rfl

theorem Quote.send_request_none (q : Quote) (url : Url) (tr : TrId)
    (h : q.auth.get_token = none) :
    q.send_request url tr = (.error (.AuthInitFailed "token"), []) := by
  unfold Quote.send_request
  rw [h]

theorem Quote.send_request_trace (q : Quote) (url : Url) (tr : TrId)
    (t : String) (h : q.auth.get_token = some t) :
    (q.send_request url tr).snd =
      [{ url := url,
         headers :=
           [("Content-Type", "application/json"),
            ("Authorization", "Bearer " ++ t),
            ("appkey", q.auth.get_appkey),
            ("appsecret", q.auth.get_appsecret),
            ("tr_id", tr.intoString),
            ("custtype", "P")] }] := by
  unfold Quote.send_request
  rw [h]
  dsimp only
  split <;> rfl

/-- C10: for every combination of client, environment, auth handle and
account, `Quote::new` returns `Ok`: the error branch of its `Result` type is
never taken, so construction cannot fail. -/
theorem C10_new_always_ok (c : Transport) (env : Environment) (a : Auth)
    (acc : Account) : (Quote.new c env a acc).isOk = true := by
  cases env <;> rfl

set_option maxRecDepth 16384

theorem parseOkDR (ps : List (String × String)) :
    parse_with_params ("https://openapi.koreainvestment.com:9443/uapi/domestic-stock/v1/quotations/inquire-daily-price") ps
      = .ok { base := "https://openapi.koreainvestment.com:9443/uapi/domestic-stock/v1/quotations/inquire-daily-price", params := ps } := rfl

theorem parseOkDV (ps : List (String × String)) :
    parse_with_params ("https://openapivts.koreainvestment.com:29443/uapi/domestic-stock/v1/quotations/inquire-daily-price") ps
      = .ok { base := "https://openapivts.koreainvestment.com:29443/uapi/domestic-stock/v1/quotations/inquire-daily-price", params := ps } := rfl

theorem parseOkPR (ps : List (String × String)) :
    parse_with_params ("https://openapi.koreainvestment.com:9443/uapi/domestic-stock/v1/quotations/inquire-daily-itemchartprice") ps
      = .ok { base := "https://openapi.koreainvestment.com:9443/uapi/domestic-stock/v1/quotations/inquire-daily-itemchartprice", params := ps } := rfl

theorem parseOkPV (ps : List (String × String)) :
    parse_with_params ("https://openapivts.koreainvestment.com:29443/uapi/domestic-stock/v1/quotations/inquire-daily-itemchartprice") ps
      = .ok { base := "https://openapivts.koreainvestment.com:29443/uapi/domestic-stock/v1/quotations/inquire-daily-itemchartprice", params := ps } := rfl

theorem parseOkVol (ps : List (String × String)) :
    parse_with_params ("https://openapi.koreainvestment.com:9443/uapi/domestic-stock/v1/quotations/volume-rank") ps
      = .ok { base := "https://openapi.koreainvestment.com:9443/uapi/domestic-stock/v1/quotations/volume-rank", params := ps } := rfl

/-- C8: two dispatchers that differ only in the account context passed at
construction produce identical results (same requests, same outcome) on every
operation given the same inputs and the same authentication state: the
account field influences no request. -/
theorem C8_account_irrelevant (c : Transport) (e : String) (env : Environment)
    (a : Auth) (acc1 acc2 : Account)
    (dec1 : String → Option DailyPriceResponse)
    (dec2 : String → Option PeriodicPriceResponse)
    (dec3 : String → Option VolumeRankResponse)
    (m : MarketCode) (sc : String) (p : PeriodCode) (adj : Bool)
    (d1 d2 : String) (ps : VolumeRankParameter) :
    Quote.daily_price
        { client := c, endpoint_url := e, environment := env, auth := a,
          account := acc1 } dec1 m sc p adj
      = Quote.daily_price
        { client := c, endpoint_url := e, environment := env, auth := a,
          account := acc2 } dec1 m sc p adj ∧
    Quote.periodic_price
        { client := c, endpoint_url := e, environment := env, auth := a,
          account := acc1 } dec2 m sc p d1 d2 adj
      = Quote.periodic_price
        { client := c, endpoint_url := e, environment := env, auth := a,
          account := acc2 } dec2 m sc p d1 d2 adj ∧
    Quote.volume_rank
        { client := c, endpoint_url := e, environment := env, auth := a,
          account := acc1 } dec3 ps
      = Quote.volume_rank
        { client := c, endpoint_url := e, environment := env, auth := a,
          account := acc2 } dec3 ps :=
  ⟨rfl, rfl, rfl⟩

/-- C9: running any sequence of calls on a constructed dispatcher leaves the
dispatcher exactly as constructed (no field is mutated), and the outcome of
every call in the sequence equals the outcome of that same call performed
alone on the freshly constructed dispatcher: calls are stateless and
independent of prior calls. -/
theorem C9_dispatcher_immutable_stateless (q : Quote) (cs : List Call) :
    (q.run cs).snd = q ∧
    (q.run cs).fst = cs.map (fun c => (q.call c).fst) := by
  induction cs with
  | nil => exact ⟨rfl, rfl⟩
  | cons c cs ih =>
    refine ⟨?_, ?_⟩ <;>
      simp [Quote.run, Quote.call_snd, ih.1, ih.2]

/-- C2: if the authentication provider reports no current token, every
operation of a constructed dispatcher returns the `AuthInitFailed`
authentication error and sends no HTTP request (the list of requests handed
to the transport is empty). -/
theorem C2_no_token_fails_fast (c : Transport) (env : Environment) (a : Auth)
    (acc : Account) (q : Quote)
    (hq : Quote.new c env a acc = .ok q)
    (h : q.auth.get_token = none)
    (dec1 : String → Option DailyPriceResponse)
    (dec2 : String → Option PeriodicPriceResponse)
    (dec3 : String → Option VolumeRankResponse)
    (m : MarketCode) (sc : String) (p : PeriodCode) (adj : Bool)
    (d1 d2 : String) (ps : VolumeRankParameter) :
    q.daily_price dec1 m sc p adj = (.error (.AuthInitFailed "token"), []) ∧
    q.periodic_price dec2 m sc p d1 d2 adj
      = (.error (.AuthInitFailed "token"), []) ∧
    q.volume_rank dec3 ps = (.error (.AuthInitFailed "token"), []) := by
  cases env <;>
  · simp only [Quote.new, Except.ok.injEq] at hq
    subst hq
    simp only [Auth.get_token] at h
    refine ⟨?_, ?_, ?_⟩ <;>
      simp [Quote.daily_price, Quote.periodic_price, Quote.volume_rank,
        parseOkDR, parseOkDV, parseOkPR, parseOkPV, parseOkVol,
        Quote.send_request_none, Auth.get_token, h]

/-- Witness for C2 at a concrete dispatcher with no token. -/
theorem C2_no_token_fails_fast_witness :
    (Quote.new (okT 200 "B") .Real noTokenAuth acct
      = .ok { client := okT 200 "B",
              endpoint_url := "https://openapi.koreainvestment.com:9443",
              environment := .Real, auth := noTokenAuth, account := acct }) ∧
    ({ client := okT 200 "B",
       endpoint_url := "https://openapi.koreainvestment.com:9443",
       environment := .Real, auth := noTokenAuth,
       account := acct : Quote }.auth.get_token = none) ∧
    (Quote.daily_price
        { client := okT 200 "B",
          endpoint_url := "https://openapi.koreainvestment.com:9443",
          environment := .Real, auth := noTokenAuth, account := acct }
        dDec .Stock "005930" .Day true
      = (.error (.AuthInitFailed "token"), []) ∧
     Quote.periodic_price
        { client := okT 200 "B",
          endpoint_url := "https://openapi.koreainvestment.com:9443",
          environment := .Real, auth := noTokenAuth, account := acct }
        pDec .Stock "005930" .Day "20240101" "20240131" true
      = (.error (.AuthInitFailed "token"), []) ∧
     Quote.volume_rank
        { client := okT 200 "B",
          endpoint_url := "https://openapi.koreainvestment.com:9443",
          environment := .Real, auth := noTokenAuth, account := acct }
        vDec { pairs := [] }
      = (.error (.AuthInitFailed "token"), [])) :=
  ⟨rfl, rfl,
   C2_no_token_fails_fast (okT 200 "B") .Real noTokenAuth acct _ rfl rfl
     dDec pDec vDec .Stock "005930" .Day true "20240101" "20240131"
     { pairs := [] }⟩

/-- C1 counterexample: on a dispatcher whose transport always answers HTTP
status 500 with a body the decoder accepts, `daily_price` returns `Ok` with
the decoded payload — no error at all, in particular no HTTP-status error.
The conjuncts pin down that the transport's answer has the non-2xx status
500 for every request. -/
theorem C1_daily_price_ok_despite_non2xx :
    cxQuote.client = okT 500 "B" ∧ (300:Nat) ≤ 500 ∧
    (cxQuote.daily_price dDec .Stock "005930" .Day true).fst
      = .ok { out := "decoded" } := by
  refine ⟨rfl, by decide, ?_⟩
  rfl

/-- C1 amended: the operations never consult the HTTP status. For any two
transports answering the same body under different status codes, every
operation returns the identical result: a non-2xx status is not surfaced as a
distinct HTTP-status error; the body is JSON-decoded exactly as for 2xx. -/
theorem C1_status_not_consulted (q : Quote) (s1 s2 : Nat) (b : String)
    (dec1 : String → Option DailyPriceResponse)
    (dec2 : String → Option PeriodicPriceResponse)
    (dec3 : String → Option VolumeRankResponse)
    (m : MarketCode) (sc : String) (p : PeriodCode) (adj : Bool)
    (d1 d2 : String) (ps : VolumeRankParameter) :
    Quote.daily_price
        { q with client := fun _ => .ok { status := s1, body := b } }
        dec1 m sc p adj
      = Quote.daily_price
        { q with client := fun _ => .ok { status := s2, body := b } }
        dec1 m sc p adj ∧
    Quote.periodic_price
        { q with client := fun _ => .ok { status := s1, body := b } }
        dec2 m sc p d1 d2 adj
      = Quote.periodic_price
        { q with client := fun _ => .ok { status := s2, body := b } }
        dec2 m sc p d1 d2 adj ∧
    Quote.volume_rank
        { q with client := fun _ => .ok { status := s1, body := b } }
        dec3 ps
      = Quote.volume_rank
        { q with client := fun _ => .ok { status := s2, body := b } }
        dec3 ps := by
  refine ⟨?_, ?_, ?_⟩
  · cases hp : parse_with_params
        (q.endpoint_url ++ "/uapi/domestic-stock/v1/quotations/inquire-daily-price")
        (DailyPriceParameter.new m sc p adj).into_iter with
    | error e => simp [Quote.daily_price, hp]
    | ok u =>
      cases ht : q.auth.get_token with
      | none =>
        simp [Quote.daily_price, hp, Quote.send_request_none, ht]
      | some t =>
        simp [Quote.daily_price, hp, Quote.send_request, ht, Response.json]
  · cases hp : parse_with_params
        (q.endpoint_url ++ "/uapi/domestic-stock/v1/quotations/inquire-daily-itemchartprice")
        (PeriodicPriceParameter.new m sc d1 d2 p adj).into_iter with
    | error e => simp [Quote.periodic_price, hp]
    | ok u =>
      cases ht : q.auth.get_token with
      | none =>
        simp [Quote.periodic_price, hp, Quote.send_request_none, ht]
      | some t =>
        simp [Quote.periodic_price, hp, Quote.send_request, ht, Response.json]
  · cases hp : parse_with_params
        "https://openapi.koreainvestment.com:9443/uapi/domestic-stock/v1/quotations/volume-rank"
        ps.into_iter with
    | error e => simp [Quote.volume_rank, hp]
    | ok u =>
      cases ht : q.auth.get_token with
      | none =>
        simp [Quote.volume_rank, hp, Quote.send_request_none, ht]
      | some t =>
        simp [Quote.volume_rank, hp, Quote.send_request, ht, Response.json]

theorem Quote.send_request_snd (q : Quote) (url : Url) (tr : TrId) :
    (q.send_request url tr).snd =
      match q.auth.get_token with
      | none => []
      | some t =>
        [{ url := url,
           headers :=
             [("Content-Type", "application/json"),
              ("Authorization", "Bearer " ++ t),
              ("appkey", q.auth.get_appkey),
              ("appsecret", q.auth.get_appsecret),
              ("tr_id", tr.intoString),
              ("custtype", "P")] }] := by
  unfold Quote.send_request
  cases h : q.auth.get_token with
  | none => rfl
  | some t =>
    dsimp only
    split <;> rfl

/-- C3: on a dispatcher constructed with an auth state holding token `t`, app
key `k` and app secret `s`, every operation dispatches exactly one request
whose header list is exactly Content-Type: application/json,
Authorization: Bearer t, appkey: k, appsecret: s, tr_id, custtype: P, in that
order, where the tr_id value is the operation's own transaction identifier
(DailyPrice for daily_price, PeriodicPrice for periodic_price, VolumeRank for
volume_rank) and the three identifiers are pairwise distinct (the map is
1:1). -/
theorem C3_exact_headers (c : Transport) (env : Environment) (acc : Account)
    (q : Quote) (t k s : String)
    (hq : Quote.new c env { token := some t, appkey := k, appsecret := s } acc
      = .ok q)
    (dec1 : String → Option DailyPriceResponse)
    (dec2 : String → Option PeriodicPriceResponse)
    (dec3 : String → Option VolumeRankResponse)
    (m : MarketCode) (sc : String) (p : PeriodCode) (adj : Bool)
    (d1 d2 : String) (ps : VolumeRankParameter) :
    (q.daily_price dec1 m sc p adj).snd.map (fun r => r.headers)
      = [[("Content-Type", "application/json"),
          ("Authorization", "Bearer " ++ t),
          ("appkey", k), ("appsecret", s),
          ("tr_id", TrId.DailyPrice.intoString), ("custtype", "P")]] ∧
    (q.periodic_price dec2 m sc p d1 d2 adj).snd.map (fun r => r.headers)
      = [[("Content-Type", "application/json"),
          ("Authorization", "Bearer " ++ t),
          ("appkey", k), ("appsecret", s),
          ("tr_id", TrId.PeriodicPrice.intoString), ("custtype", "P")]] ∧
    (q.volume_rank dec3 ps).snd.map (fun r => r.headers)
      = [[("Content-Type", "application/json"),
          ("Authorization", "Bearer " ++ t),
          ("appkey", k), ("appsecret", s),
          ("tr_id", TrId.VolumeRank.intoString), ("custtype", "P")]] ∧
    TrId.DailyPrice.intoString ≠ TrId.PeriodicPrice.intoString ∧
    TrId.DailyPrice.intoString ≠ TrId.VolumeRank.intoString ∧
    TrId.PeriodicPrice.intoString ≠ TrId.VolumeRank.intoString := by
  cases env <;>
  · simp only [Quote.new, Except.ok.injEq] at hq
    subst hq
    refine ⟨?_, ?_, ?_, by decide, by decide, by decide⟩ <;>
      simp [Quote.daily_price, Quote.periodic_price, Quote.volume_rank,
        parseOkDR, parseOkDV, parseOkPR, parseOkPV, parseOkVol,
        Quote.send_request_snd, Auth.get_token, Auth.get_appkey,
        Auth.get_appsecret]

/-- Witness for C3 at a concrete dispatcher with token "T", key "K",
secret "S". -/
theorem C3_exact_headers_witness :
    (Quote.new (okT 200 "B") .Real
        { token := some "T", appkey := "K", appsecret := "S" } acct
      = .ok wQuote) ∧
    ((wQuote.daily_price dDec .Stock "005930" .Day true).snd.map
        (fun r => r.headers)
      = [[("Content-Type", "application/json"),
          ("Authorization", "Bearer " ++ "T"),
          ("appkey", "K"), ("appsecret", "S"),
          ("tr_id", TrId.DailyPrice.intoString), ("custtype", "P")]] ∧
    (wQuote.periodic_price pDec .Stock "005930" .Day "20240101" "20240131"
        true).snd.map (fun r => r.headers)
      = [[("Content-Type", "application/json"),
          ("Authorization", "Bearer " ++ "T"),
          ("appkey", "K"), ("appsecret", "S"),
          ("tr_id", TrId.PeriodicPrice.intoString), ("custtype", "P")]] ∧
    (wQuote.volume_rank vDec { pairs := [] }).snd.map (fun r => r.headers)
      = [[("Content-Type", "application/json"),
          ("Authorization", "Bearer " ++ "T"),
          ("appkey", "K"), ("appsecret", "S"),
          ("tr_id", TrId.VolumeRank.intoString), ("custtype", "P")]] ∧
    TrId.DailyPrice.intoString ≠ TrId.PeriodicPrice.intoString ∧
    TrId.DailyPrice.intoString ≠ TrId.VolumeRank.intoString ∧
    TrId.PeriodicPrice.intoString ≠ TrId.VolumeRank.intoString) :=
  ⟨rfl,
   C3_exact_headers (okT 200 "B") .Real acct wQuote "T" "K" "S" rfl
     dDec pDec vDec .Stock "005930" .Day true "20240101" "20240131"
     { pairs := [] }⟩

/-- C4: for every configured environment, `volume_rank` targets the hardcoded
production host `https://openapi.koreainvestment.com:9443`: the request URL's
base is the production volume-rank URL, and a dispatcher constructed for the
Virtual environment behaves identically on `volume_rank` to one constructed
for Real — the configured environment and endpoint URL are ignored. -/
theorem C4_volume_rank_production_host (c : Transport) (acc : Account)
    (qR qV : Quote) (t k s : String)
    (hR : Quote.new c .Real { token := some t, appkey := k, appsecret := s }
      acc = .ok qR)
    (hV : Quote.new c .Virtual { token := some t, appkey := k, appsecret := s }
      acc = .ok qV)
    (dec : String → Option VolumeRankResponse) (ps : VolumeRankParameter) :
    (qR.volume_rank dec ps).snd.map (fun r => r.url.base)
      = ["https://openapi.koreainvestment.com:9443/uapi/domestic-stock/v1/quotations/volume-rank"] ∧
    (qV.volume_rank dec ps).snd.map (fun r => r.url.base)
      = ["https://openapi.koreainvestment.com:9443/uapi/domestic-stock/v1/quotations/volume-rank"] ∧
    qV.volume_rank dec ps = qR.volume_rank dec ps := by
  simp only [Quote.new, Except.ok.injEq] at hR hV
  subst hR hV
  refine ⟨?_, ?_, rfl⟩ <;>
    simp [Quote.volume_rank, parseOkVol, Quote.send_request_snd,
      Auth.get_token]

/-- Witness for C4 at concrete Real and Virtual dispatchers. -/
theorem C4_volume_rank_production_host_witness :
    (Quote.new (okT 200 "B") .Real
        { token := some "T", appkey := "K", appsecret := "S" } acct
      = .ok wQuote) ∧
    (Quote.new (okT 200 "B") .Virtual
        { token := some "T", appkey := "K", appsecret := "S" } acct
      = .ok wQuoteV) ∧
    ((wQuote.volume_rank vDec { pairs := [] }).snd.map (fun r => r.url.base)
      = ["https://openapi.koreainvestment.com:9443/uapi/domestic-stock/v1/quotations/volume-rank"] ∧
    (wQuoteV.volume_rank vDec { pairs := [] }).snd.map (fun r => r.url.base)
      = ["https://openapi.koreainvestment.com:9443/uapi/domestic-stock/v1/quotations/volume-rank"] ∧
    wQuoteV.volume_rank vDec { pairs := [] }
      = wQuote.volume_rank vDec { pairs := [] }) :=
  ⟨rfl, rfl,
   C4_volume_rank_production_host (okT 200 "B") acct wQuote wQuoteV
     "T" "K" "S" rfl rfl vDec { pairs := [] }⟩

/-- C5: the base URL a constructed dispatcher resolves is determined solely
by the environment — Real yields the production host on port 9443, Virtual
the simulation host on port 29443 — and `daily_price` and `periodic_price`
build their request URLs by appending their fixed paths to that base. -/
theorem C5_base_url_by_environment (c : Transport) (acc : Account)
    (qR qV : Quote) (t k s : String)
    (hR : Quote.new c .Real { token := some t, appkey := k, appsecret := s }
      acc = .ok qR)
    (hV : Quote.new c .Virtual { token := some t, appkey := k, appsecret := s }
      acc = .ok qV)
    (dec1 : String → Option DailyPriceResponse)
    (dec2 : String → Option PeriodicPriceResponse)
    (m : MarketCode) (sc : String) (p : PeriodCode) (adj : Bool)
    (d1 d2 : String) :
    qR.endpoint_url = "https://openapi.koreainvestment.com:9443" ∧
    qV.endpoint_url = "https://openapivts.koreainvestment.com:29443" ∧
    (qR.daily_price dec1 m sc p adj).snd.map (fun r => r.url.base)
      = [qR.endpoint_url ++ "/uapi/domestic-stock/v1/quotations/inquire-daily-price"] ∧
    (qV.daily_price dec1 m sc p adj).snd.map (fun r => r.url.base)
      = [qV.endpoint_url ++ "/uapi/domestic-stock/v1/quotations/inquire-daily-price"] ∧
    (qR.periodic_price dec2 m sc p d1 d2 adj).snd.map (fun r => r.url.base)
      = [qR.endpoint_url ++ "/uapi/domestic-stock/v1/quotations/inquire-daily-itemchartprice"] ∧
    (qV.periodic_price dec2 m sc p d1 d2 adj).snd.map (fun r => r.url.base)
      = [qV.endpoint_url ++ "/uapi/domestic-stock/v1/quotations/inquire-daily-itemchartprice"] := by
  simp only [Quote.new, Except.ok.injEq] at hR hV
  subst hR hV
  refine ⟨rfl, rfl, ?_, ?_, ?_, ?_⟩ <;>
    simp [Quote.daily_price, Quote.periodic_price, parseOkDR, parseOkDV,
      parseOkPR, parseOkPV, Quote.send_request_snd, Auth.get_token]

/-- Witness for C5 at concrete Real and Virtual dispatchers. -/
theorem C5_base_url_by_environment_witness :
    (Quote.new (okT 200 "B") .Real
        { token := some "T", appkey := "K", appsecret := "S" } acct
      = .ok wQuote) ∧
    (Quote.new (okT 200 "B") .Virtual
        { token := some "T", appkey := "K", appsecret := "S" } acct
      = .ok wQuoteV) ∧
    (wQuote.endpoint_url = "https://openapi.koreainvestment.com:9443" ∧
    wQuoteV.endpoint_url = "https://openapivts.koreainvestment.com:29443" ∧
    (wQuote.daily_price dDec .Stock "005930" .Day true).snd.map
        (fun r => r.url.base)
      = [wQuote.endpoint_url ++ "/uapi/domestic-stock/v1/quotations/inquire-daily-price"] ∧
    (wQuoteV.daily_price dDec .Stock "005930" .Day true).snd.map
        (fun r => r.url.base)
      = [wQuoteV.endpoint_url ++ "/uapi/domestic-stock/v1/quotations/inquire-daily-price"] ∧
    (wQuote.periodic_price pDec .Stock "005930" .Day "20240101" "20240131"
        true).snd.map (fun r => r.url.base)
      = [wQuote.endpoint_url ++ "/uapi/domestic-stock/v1/quotations/inquire-daily-itemchartprice"] ∧
    (wQuoteV.periodic_price pDec .Stock "005930" .Day "20240101" "20240131"
        true).snd.map (fun r => r.url.base)
      = [wQuoteV.endpoint_url ++ "/uapi/domestic-stock/v1/quotations/inquire-daily-itemchartprice"]) :=
  ⟨rfl, rfl,
   C5_base_url_by_environment (okT 200 "B") acct wQuote wQuoteV "T" "K" "S"
     rfl rfl dDec pDec .Stock "005930" .Day true "20240101" "20240131"⟩

/-- C6: calling `daily_price` with shortcode "005930", the domestic market
code, a period code and adjustment flag true dispatches exactly one request
whose URL is the base URL with the fixed path
/uapi/domestic-stock/v1/quotations/inquire-daily-price appended, and whose
query pairs are exactly the encodings of those four typed inputs. -/
theorem C6_daily_price_path_and_params (c : Transport) (env : Environment)
    (acc : Account) (q : Quote) (t k s : String)
    (hq : Quote.new c env { token := some t, appkey := k, appsecret := s } acc
      = .ok q)
    (dec : String → Option DailyPriceResponse) (p : PeriodCode) :
    (q.daily_price dec .Stock "005930" p true).snd.map (fun r => r.url)
      = [{ base := q.endpoint_url ++ "/uapi/domestic-stock/v1/quotations/inquire-daily-price",
           params := [("FID_COND_MRKT_DIV_CODE", "J"),
                      ("FID_INPUT_ISCD", "005930"),
                      ("FID_PERIOD_DIV_CODE", p.code),
                      ("FID_ORG_ADJ_PRC", "1")] }] := by
  cases env <;>
  · simp only [Quote.new, Except.ok.injEq] at hq
    subst hq
    simp [Quote.daily_price, parseOkDR, parseOkDV, Quote.send_request_snd,
      Auth.get_token, DailyPriceParameter.new, DailyPriceParameter.into_iter,
      MarketCode.code]

/-- Witness for C6 at a concrete Real dispatcher with period code Day. -/
theorem C6_daily_price_path_and_params_witness :
    (Quote.new (okT 200 "B") .Real
        { token := some "T", appkey := "K", appsecret := "S" } acct
      = .ok wQuote) ∧
    (wQuote.daily_price dDec .Stock "005930" .Day true).snd.map
        (fun r => r.url)
      = [{ base := wQuote.endpoint_url ++ "/uapi/domestic-stock/v1/quotations/inquire-daily-price",
           params := [("FID_COND_MRKT_DIV_CODE", "J"),
                      ("FID_INPUT_ISCD", "005930"),
                      ("FID_PERIOD_DIV_CODE", PeriodCode.Day.code),
                      ("FID_ORG_ADJ_PRC", "1")] }] :=
  ⟨rfl,
   C6_daily_price_path_and_params (okT 200 "B") .Real acct wQuote "T" "K" "S"
     rfl dDec .Day⟩

/-- C7: if URL construction fails for `daily_price` or `periodic_price` (the
endpoint string does not parse as an absolute URL), the operation returns the
URL-construction error wrapping the parse error — a variant distinct from the
authentication, transport and decode error classes — and no HTTP request is
sent. For `volume_rank` the base URL is the hardcoded production constant, so
URL construction always succeeds and the condition cannot arise. -/
theorem C7_url_error_no_request (q : Quote)
    (dec1 : String → Option DailyPriceResponse)
    (dec2 : String → Option PeriodicPriceResponse)
    (m : MarketCode) (sc : String) (p : PeriodCode) (adj : Bool)
    (d1 d2 : String) (ps : VolumeRankParameter) (e1 e2 : ParseError)
    (h1 : parse_with_params
        (q.endpoint_url ++ "/uapi/domestic-stock/v1/quotations/inquire-daily-price")
        (DailyPriceParameter.new m sc p adj).into_iter = .error e1)
    (h2 : parse_with_params
        (q.endpoint_url ++ "/uapi/domestic-stock/v1/quotations/inquire-daily-itemchartprice")
        (PeriodicPriceParameter.new m sc d1 d2 p adj).into_iter = .error e2) :
    q.daily_price dec1 m sc p adj = (.error (.UrlParse e1), []) ∧
    q.periodic_price dec2 m sc p d1 d2 adj = (.error (.UrlParse e2), []) ∧
    (∀ w, Error.UrlParse e1 ≠ .AuthInitFailed w) ∧
    (∀ te, Error.UrlParse e1 ≠ .Request te) ∧
    (∀ b, Error.UrlParse e1 ≠ .Decode b) ∧
    (parse_with_params
        "https://openapi.koreainvestment.com:9443/uapi/domestic-stock/v1/quotations/volume-rank"
        ps.into_iter).isOk = true := by
  refine ⟨?_, ?_, fun w h => Error.noConfusion h,
    fun te h => Error.noConfusion h, fun b h => Error.noConfusion h, rfl⟩
  · simp [Quote.daily_price, h1]
  · simp [Quote.periodic_price, h2]

/-- Witness for C7 at a dispatcher whose endpoint string is "not a url". -/
theorem C7_url_error_no_request_witness :
    (parse_with_params
        (badUrlQuote.endpoint_url ++ "/uapi/domestic-stock/v1/quotations/inquire-daily-price")
        (DailyPriceParameter.new .Stock "005930" .Day true).into_iter
      = .error .relativeUrlWithoutBase) ∧
    (parse_with_params
        (badUrlQuote.endpoint_url ++ "/uapi/domestic-stock/v1/quotations/inquire-daily-itemchartprice")
        (PeriodicPriceParameter.new .Stock "005930" "20240101" "20240131" .Day
          true).into_iter
      = .error .relativeUrlWithoutBase) ∧
    (badUrlQuote.daily_price dDec .Stock "005930" .Day true
      = (.error (.UrlParse .relativeUrlWithoutBase), []) ∧
    badUrlQuote.periodic_price pDec .Stock "005930" .Day "20240101" "20240131"
        true
      = (.error (.UrlParse .relativeUrlWithoutBase), []) ∧
    (∀ w, Error.UrlParse .relativeUrlWithoutBase ≠ .AuthInitFailed w) ∧
    (∀ te, Error.UrlParse .relativeUrlWithoutBase ≠ .Request te) ∧
    (∀ b, Error.UrlParse .relativeUrlWithoutBase ≠ .Decode b) ∧
    (parse_with_params
        "https://openapi.koreainvestment.com:9443/uapi/domestic-stock/v1/quotations/volume-rank"
        (VolumeRankParameter.into_iter { pairs := [] })).isOk = true) :=
  ⟨rfl, rfl,
   C7_url_error_no_request badUrlQuote dDec pDec .Stock "005930" .Day true
     "20240101" "20240131" { pairs := [] } .relativeUrlWithoutBase
     .relativeUrlWithoutBase rfl rfl⟩
